import Mathlib

/-!
Verification development for the JNI C++ module generator
(`packages/react-native-codegen/src/generators/modules/GenerateModuleJniCpp.js`).

The JS source is shallowly embedded below: every translator becomes a Lean
function over the schema data model, fallible code returns `Except String`,
and the JS `String.prototype.replace` calls (global regexes over literal
placeholder text, plus one single-occurrence string replace) are modelled by
`replaceAll` / `replaceFirst`, literal left-to-right non-overlapping scans.
-/

/-! ## Data model

The schema types (`CodegenSchema.js`) as consumed by this generator.  A type
annotation is a tagged record: `type` is the variant tag the JS `switch`
statements dispatch on, `name` carries the reserved-scalar name or the alias
name, `nullable` is the nullability flag, and `properties` models the
`properties` array of a structural `ObjectTypeAnnotation` (the generator only
reads its presence and length, so property names suffice; `none` models an
absent field, as distinguished from an empty array by the JS truthiness
check). -/

structure TypeAnnot where
  type : String
  nullable : Bool
  name : String
  properties : Option (List String)
deriving Repr, DecidableEq

/-- A method parameter (`FunctionTypeAnnotationParam`): name, nullability and
its type annotation. -/
structure Param where
  name : String
  nullable : Bool
  typeAnnot : TypeAnnot
deriving Repr, DecidableEq

/-- A method type (`property.typeAnnotation`): ordered parameters plus the
return type annotation. -/
structure FunctionTypeAnnot where
  params : List Param
  returnTypeAnnot : TypeAnnot
deriving Repr, DecidableEq

/-- One native-module method (`property` in the JS source). -/
structure Property where
  name : String
  typeAnnot : FunctionTypeAnnot
deriving Repr, DecidableEq

/-- One native module (`NativeModuleShape`): its alias table and methods, the
alias table as an association list in insertion order. -/
structure NativeModuleShape where
  aliases : List (String × TypeAnnot)
  properties : List Property
deriving Repr, DecidableEq

/-- One schema group (`schema.modules[key]`): its `nativeModules` field may be
absent (`== null` in the JS source). The inner object is an association list
in insertion order, matching JS string-keyed object enumeration. -/
structure ModuleGroup where
  nativeModules : Option (List (String × NativeModuleShape))
deriving Repr, DecidableEq

/-- A whole schema (`SchemaType`): the outer `modules` object, as an
association list in insertion order. -/
structure SchemaType where
  modules : List (String × ModuleGroup)
deriving Repr, DecidableEq

/-! ## String substitution machinery

`replaceAll s pat rep` models `s.replace(/pat/g, rep)` for the literal
placeholder patterns used by the generator: one left-to-right scan, matches do
not overlap, the replacement text is never rescanned.  `replaceFirst` models
`s.replace(pat, rep)` with a string pattern (first occurrence only).  Both are
written with a character-count fuel so that they are structurally recursive
and reduce definitionally; the initial fuel is the length of the scanned
string, which the scan never exhausts. -/

def replaceCharsAux : Nat → List Char → List Char → List Char → List Char
  | 0, l, _, _ => l
  | _ + 1, [], _, _ => []
  | fuel + 1, c :: rest, pat, rep =>
    if !pat.isEmpty && pat.isPrefixOf (c :: rest) then
      rep ++ replaceCharsAux fuel (List.drop pat.length (c :: rest)) pat rep
    else
      c :: replaceCharsAux fuel rest pat rep

def replaceAll (s pat rep : String) : String :=
  String.mk (replaceCharsAux s.data.length s.data pat.data rep.data)

def replaceFirstCharsAux : Nat → List Char → List Char → List Char → List Char
  | 0, l, _, _ => l
  | _ + 1, [], _, _ => []
  | fuel + 1, c :: rest, pat, rep =>
    if !pat.isEmpty && pat.isPrefixOf (c :: rest) then
      rep ++ List.drop pat.length (c :: rest)
    else
      c :: replaceFirstCharsAux fuel rest pat rep

def replaceFirst (s pat rep : String) : String :=
  String.mk (replaceFirstCharsAux s.data.length s.data pat.data rep.data)

/-- Does `pat` occur as a contiguous run within `l`? -/
def occursWithin (pat : List Char) : List Char → Bool
  | [] => pat.isEmpty
  | c :: rest => pat.isPrefixOf (c :: rest) || occursWithin pat rest

/-- The first character of a string, as a proposition usable through the
substitution lemmas below. -/
def firstCharIs (s : String) (c : Char) : Prop := s.data.head? = some c

/-! ## Templates

The template strings of the source file, verbatim (JS template literals with
their leading/trailing newlines; `moduleTemplate` is `.trim()`ed in the
source, so its value below has the surrounding newlines removed). -/

def propertyHeaderTemplate : String :=
  "static facebook::jsi::Value __hostFunction_Native::_MODULE_NAME_::SpecJSI_::_PROPERTY_NAME_::(facebook::jsi::Runtime& rt, TurboModule &turboModule, const facebook::jsi::Value* args, size_t count) \x7b"

def propertyCastTemplate : String :=
  "static_cast<JavaTurboModule &>(turboModule).invokeJavaMethod(rt, ::_KIND_::, \"::_PROPERTY_NAME_::\", \"::_SIGNATURE_::\", args, count);"

def propertyTemplate : String :=
  "\n" ++ propertyHeaderTemplate ++ "\n  return " ++ propertyCastTemplate ++ "\n\x7d"

def propertyDefTemplate : String :=
  "  methodMap_[\"::_PROPERTY_NAME_::\"] = MethodMetadata \x7b::_ARGS_COUNT_::, __hostFunction_Native::_MODULE_NAME_::SpecJSI_::_PROPERTY_NAME_::\x7d;"

def moduleTemplate : String :=
  "::_TURBOMODULE_METHOD_INVOKERS_::\n\nNative::_MODULE_NAME_::SpecJSI::Native::_MODULE_NAME_::SpecJSI(const JavaTurboModule::InitParams &params)\n  : JavaTurboModule(params) \x7b\n::_PROPERTIES_MAP_::\n\x7d"

def oneModuleLookupTemplate : String :=
  "  if (moduleName == \"::_MODULE_NAME_::\") \x7b\n    return std::make_shared<Native::_MODULE_NAME_::SpecJSI>(params);\n  \x7d"

def fileTemplate : String :=
  "\n/**\n * Copyright (c) Facebook, Inc. and its affiliates.\n *\n * This source code is licensed under the MIT license found in the\n * LICENSE file in the root directory of this source tree.\n *\n * @generated by codegen project: GenerateModuleJniCpp.js\n */\n\n#include ::_INCLUDE_::\n\nnamespace facebook \x7b\nnamespace react \x7b\n\n::_MODULES_::\n\nstd::shared_ptr<TurboModule> ::_LIBRARY_NAME_::_ModuleProvider(const std::string moduleName, const JavaTurboModule::InitParams &params) \x7b\n::_MODULE_LOOKUP_::\n\x7d\n\n\x7d // namespace react\n\x7d // namespace facebook\n"

/-! Placeholder patterns, named so that call sites read like the regex
literals of the source. -/

def kindPat : String := "::_KIND_::"

def propNamePat : String := "::_PROPERTY_NAME_::"

def signaturePat : String := "::_SIGNATURE_::"

def argsPat : String := "::_ARGS_::"

def argsCountPat : String := "::_ARGS_COUNT_::"

def moduleNamePat : String := "::_MODULE_NAME_::"

def invokersPat : String := "::_TURBOMODULE_METHOD_INVOKERS_::"

def propsMapPat : String := "::_PROPERTIES_MAP_::"

def modulesPat : String := "::_MODULES_::"

def libraryNamePat : String := "::_LIBRARY_NAME_::"

def moduleLookupPat : String := "::_MODULE_LOOKUP_::"

def includePat : String := "::_INCLUDE_::"

/-! ## Translators -/

/-- Modelled from the spec: the alias-resolution helper
(`getTypeAliasTypeAnnotation` from `./Utils`) is imported by the source file
but its implementation is not among the given sources.  Per the spec, the
alias table maps an alias name to a fully concrete annotation (single-level),
and an alias name absent from the table is a hard failure. -/
def getTypeAliasTypeAnnot (aliasName : String)
    (aliases : List (String × TypeAnnot)) : Except String TypeAnnot :=
  match aliases.find? (fun p => p.1 == aliasName) with
  | some p => Except.ok p.2
  | none => Except.error ("Unable to find type alias " ++ aliasName)

/-- `translateReturnTypeToKind` (source lines 76-115): the dispatch-kind tag
of a return annotation. -/
def translateReturnTypeToKind (typeAnnot : TypeAnnot) : Except String String :=
  if typeAnnot.type = "ReservedFunctionValueTypeAnnotation" then
    if typeAnnot.name = "RootTag" then Except.ok ("NumberKind")
    else Except.error ("Invalid ReservedFunctionValueTypeName name, got " ++ typeAnnot.name)
  else if typeAnnot.type = "VoidTypeAnnotation" then Except.ok ("VoidKind")
  else if typeAnnot.type = "StringTypeAnnotation" then Except.ok ("StringKind")
  else if typeAnnot.type = "BooleanTypeAnnotation" then Except.ok ("BooleanKind")
  else if typeAnnot.type = "NumberTypeAnnotation" ∨ typeAnnot.type = "DoubleTypeAnnotation"
      ∨ typeAnnot.type = "FloatTypeAnnotation" ∨ typeAnnot.type = "Int32TypeAnnotation" then
    Except.ok ("NumberKind")
  else if typeAnnot.type = "GenericPromiseTypeAnnotation" then Except.ok ("PromiseKind")
  else if typeAnnot.type = "GenericObjectTypeAnnotation" ∨ typeAnnot.type = "ObjectTypeAnnotation" then
    Except.ok ("ObjectKind")
  else if typeAnnot.type = "ArrayTypeAnnotation" then Except.ok ("ArrayKind")
  else Except.error ("Unknown prop type for returning value, found: " ++ typeAnnot.type ++ "\"")

/-- The `switch` body of `translateParamTypeToJniType` (source lines 128-163),
applied to the alias-resolved annotation with the nullability of the parameter. -/
def paramJniSwitch (nullable : Bool) (realTypeAnnot : TypeAnnot) : Except String String :=
  if realTypeAnnot.type = "ReservedFunctionValueTypeAnnotation" then
    if realTypeAnnot.name = "RootTag" then Except.ok ("D")
    else Except.error ("Invalid ReservedFunctionValueTypeName name, got " ++ realTypeAnnot.name)
  else if realTypeAnnot.type = "VoidTypeAnnotation" then Except.ok ("V")
  else if realTypeAnnot.type = "StringTypeAnnotation" then Except.ok ("Ljava/lang/String;")
  else if realTypeAnnot.type = "BooleanTypeAnnotation" then
    Except.ok (if nullable then "Ljava/lang/Boolean" else "Z")
  else if realTypeAnnot.type = "NumberTypeAnnotation" ∨ realTypeAnnot.type = "DoubleTypeAnnotation"
      ∨ realTypeAnnot.type = "FloatTypeAnnotation" ∨ realTypeAnnot.type = "Int32TypeAnnotation" then
    Except.ok (if nullable then "Ljava/lang/Double;" else "D")
  else if realTypeAnnot.type = "GenericPromiseTypeAnnotation" then
    Except.ok ("Lcom/facebook/react/bridge/Promise;")
  else if realTypeAnnot.type = "GenericObjectTypeAnnotation" ∨ realTypeAnnot.type = "ObjectTypeAnnotation" then
    Except.ok ("Lcom/facebook/react/bridge/ReadableMap;")
  else if realTypeAnnot.type = "ArrayTypeAnnotation" then
    Except.ok ("Lcom/facebook/react/bridge/ReadableArray;")
  else if realTypeAnnot.type = "FunctionTypeAnnotation" then
    Except.ok ("Lcom/facebook/react/bridge/Callback;")
  else Except.error ("Unknown prop type for method arg, found: " ++ realTypeAnnot.type ++ "\"")

/-- `translateParamTypeToJniType` (source lines 117-164): resolve a type-alias
reference through the alias table of the module, then translate. -/
def translateParamTypeToJniType (param : Param)
    (aliases : List (String × TypeAnnot)) : Except String String :=
  if param.typeAnnot.type = "TypeAliasTypeAnnotation" then
    match getTypeAliasTypeAnnot param.typeAnnot.name aliases with
    | Except.ok realTypeAnnot => paramJniSwitch param.nullable realTypeAnnot
    | Except.error e => Except.error e
  else paramJniSwitch param.nullable param.typeAnnot

/-- `translateReturnTypeToJniType` (source lines 166-205).  Note: unlike the
parameter translator, this function performs no alias resolution; it takes no
alias table at all. -/
def translateReturnTypeToJniType (typeAnnot : TypeAnnot) : Except String String :=
  if typeAnnot.type = "ReservedFunctionValueTypeAnnotation" then
    if typeAnnot.name = "RootTag" then Except.ok ("D")
    else Except.error ("Invalid ReservedFunctionValueTypeName name, got " ++ typeAnnot.name)
  else if typeAnnot.type = "VoidTypeAnnotation" then Except.ok ("V")
  else if typeAnnot.type = "StringTypeAnnotation" then Except.ok ("Ljava/lang/String;")
  else if typeAnnot.type = "BooleanTypeAnnotation" then
    Except.ok (if typeAnnot.nullable then "Ljava/lang/Boolean" else "Z")
  else if typeAnnot.type = "NumberTypeAnnotation" ∨ typeAnnot.type = "DoubleTypeAnnotation"
      ∨ typeAnnot.type = "FloatTypeAnnotation" ∨ typeAnnot.type = "Int32TypeAnnotation" then
    Except.ok (if typeAnnot.nullable then "Ljava/lang/Double;" else "D")
  else if typeAnnot.type = "GenericPromiseTypeAnnotation" then
    Except.ok ("Lcom/facebook/react/bridge/Promise;")
  else if typeAnnot.type = "GenericObjectTypeAnnotation" ∨ typeAnnot.type = "ObjectTypeAnnotation" then
    Except.ok ("Lcom/facebook/react/bridge/WritableMap;")
  else if typeAnnot.type = "ArrayTypeAnnotation" then
    Except.ok ("Lcom/facebook/react/bridge/WritableArray;")
  else Except.error ("Unknown prop type for method return type, found: " ++ typeAnnot.type ++ "\"")

/-- Effectful `List.map`: a thrown error aborts the traversal, as a JS
exception aborts `Array.prototype.map`. -/
def mapExcept {ε α β : Type} (f : α → Except ε β) : List α → Except ε (List β)
  | [] => Except.ok []
  | a :: as =>
    match f a with
    | Except.error e => Except.error e
    | Except.ok b =>
      match mapExcept f as with
      | Except.error e => Except.error e
      | Except.ok bs => Except.ok (b :: bs)

/-! ## Signature builder and method emitter -/

/-- The effective return annotation for signature purposes (source lines
215-223): a promise return is replaced by a non-nullable void annotation. -/
def processedReturnOf (property : Property) : TypeAnnot :=
  if property.typeAnnot.returnTypeAnnot.type = "GenericPromiseTypeAnnotation" then
    ⟨"VoidTypeAnnotation", false, "", none⟩
  else property.typeAnnot.returnTypeAnnot

/-- The parameter-token list of the descriptor (source lines 225-231): every
declared parameter through the parameter translator, plus, for a promise
return, one synthetic trailing token obtained by translating the promise
annotation through the return translator. -/
def signatureArgsParts (property : Property)
    (aliases : List (String × TypeAnnot)) : Except String (List String) :=
  match mapExcept (fun t => translateParamTypeToJniType t aliases) property.typeAnnot.params with
  | Except.error e => Except.error e
  | Except.ok parts =>
    if property.typeAnnot.returnTypeAnnot.type = "GenericPromiseTypeAnnotation" then
      match translateReturnTypeToJniType property.typeAnnot.returnTypeAnnot with
      | Except.error e => Except.error e
      | Except.ok p => Except.ok (parts ++ [p])
    else Except.ok parts

/-- `translateMethodTypeToJniSignature` (source lines 207-239): compose the
descriptor as parenthesised parameter tokens followed by the return token,
with the `getConstants` map override. -/
def translateMethodTypeToJniSignature (property : Property)
    (aliases : List (String × TypeAnnot)) : Except String String :=
  match signatureArgsParts property aliases with
  | Except.error e => Except.error e
  | Except.ok parts =>
    match (if property.name = "getConstants" then Except.ok ("Ljava/util/Map;")
           else translateReturnTypeToJniType (processedReturnOf property)) with
    | Except.error e => Except.error e
    | Except.ok returnSignature =>
      Except.ok ("(" ++ String.join parts ++ ")" ++ returnSignature)

/-- The degenerate-method test (source lines 260-265 and 319-322): the
reserved constants accessor whose declared return is a structural object with
a present, empty `properties` array. -/
def isConstantsDegenerate (propertyName : String) (returnTypeAnnot : TypeAnnot) : Bool :=
  propertyName == "getConstants" &&
  returnTypeAnnot.type == "ObjectTypeAnnotation" &&
  (match returnTypeAnnot.properties with
   | some props => props.length == 0
   | none => false)

/-- `numberOfParams` of `translateMethodForImplementation` (source lines
247-249): declared parameters plus one for a promise return. -/
def numberOfParamsOf (property : Property) : Nat :=
  property.typeAnnot.params.length +
    (if property.typeAnnot.returnTypeAnnot.type = "GenericPromiseTypeAnnotation" then 1 else 0)

/-- `translatedArguments` of `translateMethodForImplementation` (source lines
250-259): the parameter names, plus a synthetic trailing promise name for a
promise return, sliced from index one, joined with colons, with one
trailing colon appended, exactly as the source computes it. -/
def translatedArgumentsOf (property : Property) : String :=
  String.intercalate ":"
    (((property.typeAnnot.params.map (fun param => param.name)) ++
      (if property.typeAnnot.returnTypeAnnot.type = "GenericPromiseTypeAnnotation"
       then ["promise"] else [])).drop 1)
    ++ ":"

/-- The replacement value computed for the `::_ARGS_::` placeholder (source
lines 271-276). -/
def argsValueOf (property : Property) : String :=
  if numberOfParamsOf property = 0 then ""
  else (if numberOfParamsOf property = 1 then "" else ":") ++ translatedArgumentsOf property

/-- `translateMethodForImplementation` (source lines 241-281): the invocation
thunk text of one method, or the empty string for the degenerate case. -/
def translateMethodForImplementation (property : Property)
    (aliases : List (String × TypeAnnot)) : Except String String :=
  if isConstantsDegenerate property.name property.typeAnnot.returnTypeAnnot then Except.ok ("")
  else
    match translateReturnTypeToKind property.typeAnnot.returnTypeAnnot with
    | Except.error e => Except.error e
    | Except.ok kind =>
      match translateMethodTypeToJniSignature property aliases with
      | Except.error e => Except.error e
      | Except.ok signature =>
        Except.ok (replaceAll
          (replaceAll
            (replaceAll (replaceAll propertyTemplate kindPat kind) propNamePat property.name)
            argsPat (argsValueOf property))
          signaturePat signature)

/-- The registration-table line of one method (the `::_PROPERTIES_MAP_::`
lambda, source lines 313-328): empty for the degenerate case, otherwise
`propertyDefTemplate` with the method name and the declared-parameter count
substituted. -/
def registrationEntry (property : Property) : String :=
  if isConstantsDegenerate property.name property.typeAnnot.returnTypeAnnot then ""
  else
    replaceAll (replaceAll propertyDefTemplate propNamePat property.name)
      argsCountPat (toString property.typeAnnot.params.length)

/-! ## Module/file assembly -/

/-- One `Object.assign` step: assigning key `kv.1` overwrites the value of an
existing key in place (keeping its position) and appends a fresh key at the
end, matching JS object key semantics. -/
def insertOrReplace (acc : List (String × NativeModuleShape))
    (kv : String × NativeModuleShape) : List (String × NativeModuleShape) :=
  if acc.any (fun p => p.1 == kv.1) then
    acc.map (fun p => if p.1 == kv.1 then kv else p)
  else acc ++ [kv]

/-- The flattening of source lines 289-301: collect the `nativeModules`
of each group (dropping absent ones), then `Object.assign` them all into
one accumulator object. -/
def flattenNativeModules (schema : SchemaType) : List (String × NativeModuleShape) :=
  ((schema.modules.map (fun p => p.2.nativeModules)).filterMap id).foldl
    (fun acc ms => ms.foldl insertOrReplace acc) []

/-- The emitted block of one module (source lines 303-331): the method thunks, then
the class body with the registration table, with the module name substituted
last. -/
def moduleText (name : String) (m : NativeModuleShape) : Except String String :=
  match mapExcept (fun property => translateMethodForImplementation property m.aliases)
      m.properties with
  | Except.error e => Except.error e
  | Except.ok translatedMethods =>
    Except.ok (replaceAll
      (replaceFirst
        (replaceAll moduleTemplate invokersPat (String.intercalate "\n" translatedMethods))
        propsMapPat
        (String.intercalate "\n" (m.properties.map registrationEntry)))
      moduleNamePat name)

/-- The module-lookup block (source lines 334-338): one lookup template
instance per flattened module, in order. -/
def moduleLookupText (nativeModules : List (String × NativeModuleShape)) : String :=
  String.intercalate "\n"
    (nativeModules.map (fun p => replaceAll oneModuleLookupTemplate moduleNamePat p.1))

/-- `generate` (source lines 284-347): flatten the schema, emit every module
block and the lookup function, and package one named artifact. -/
def generate (libraryName : String) (schema : SchemaType)
    (moduleSpecName : String) : Except String (List (String × String)) :=
  let nativeModules := flattenNativeModules schema
  match mapExcept (fun p => moduleText p.1 p.2) nativeModules with
  | Except.error e => Except.error e
  | Except.ok moduleTexts =>
    Except.ok [(moduleSpecName ++ "-generated.cpp",
      replaceAll
        (replaceAll
          (replaceAll (replaceAll fileTemplate modulesPat (String.intercalate "\n" moduleTexts))
            libraryNamePat libraryName)
          moduleLookupPat (moduleLookupText nativeModules))
        includePat ("\"" ++ moduleSpecName ++ ".h\""))]

/-! ## Spec-side reference functions and token/tag inventories -/

/-- The raw stream of `(name, module)` pairs the flattening processes, in
processing order. -/
def flattenStream (schema : SchemaType) : List (String × NativeModuleShape) :=
  ((schema.modules.map (fun p => p.2.nativeModules)).filterMap id).flatten

/-- Spec words: first-seen order of the names of a stream. -/
def firstSeenKeys (stream : List (String × NativeModuleShape)) : List String :=
  stream.foldl (fun ks p => if p.1 ∈ ks then ks else ks ++ [p.1]) []

/-- Spec words: last-write-wins value of a name over a stream. -/
def lastWriteWins (stream : List (String × NativeModuleShape)) (k : String) :
    Option NativeModuleShape :=
  stream.foldl (fun r p => if p.1 == k then some p.2 else r) none

/-- The value an association list records for a name (its first entry with
that name). -/
def lookupVal (l : List (String × NativeModuleShape)) (k : String) :
    Option NativeModuleShape :=
  (l.find? (fun p => p.1 == k)).map (fun p => p.2)

/-- Does a translation succeed with a token from the given set? -/
def okTokenIn (r : Except String String) (tokens : List String) : Bool :=
  match r with
  | Except.ok t => tokens.contains t
  | Except.error _ => false

/-- The fixed set of native-ABI type descriptor tokens the two JNI-type
translators can produce. -/
def jniTokens : List String :=
  ["D", "V", "Ljava/lang/String;", "Z", "Ljava/lang/Boolean", "Ljava/lang/Double;",
   "Lcom/facebook/react/bridge/Promise;", "Lcom/facebook/react/bridge/ReadableMap;",
   "Lcom/facebook/react/bridge/ReadableArray;", "Lcom/facebook/react/bridge/Callback;",
   "Lcom/facebook/react/bridge/WritableMap;", "Lcom/facebook/react/bridge/WritableArray;"]

/-- The annotation tags the parameter-position translator supports. -/
def paramTags : List String :=
  ["ReservedFunctionValueTypeAnnotation", "VoidTypeAnnotation", "StringTypeAnnotation",
   "BooleanTypeAnnotation", "NumberTypeAnnotation", "DoubleTypeAnnotation",
   "FloatTypeAnnotation", "Int32TypeAnnotation", "GenericPromiseTypeAnnotation",
   "GenericObjectTypeAnnotation", "ObjectTypeAnnotation", "ArrayTypeAnnotation",
   "FunctionTypeAnnotation"]

/-- The annotation tags the return-position translator supports. -/
def returnTags : List String :=
  ["ReservedFunctionValueTypeAnnotation", "VoidTypeAnnotation", "StringTypeAnnotation",
   "BooleanTypeAnnotation", "NumberTypeAnnotation", "DoubleTypeAnnotation",
   "FloatTypeAnnotation", "Int32TypeAnnotation", "GenericPromiseTypeAnnotation",
   "GenericObjectTypeAnnotation", "ObjectTypeAnnotation", "ArrayTypeAnnotation"]

/-- The closed tag set of the kind translator. -/
def kindClosedTags : List String :=
  ["ReservedFunctionValueTypeAnnotation", "VoidTypeAnnotation", "StringTypeAnnotation",
   "BooleanTypeAnnotation", "NumberTypeAnnotation", "DoubleTypeAnnotation",
   "FloatTypeAnnotation", "Int32TypeAnnotation", "GenericPromiseTypeAnnotation",
   "GenericObjectTypeAnnotation", "ObjectTypeAnnotation", "ArrayTypeAnnotation"]

/-- The tags whose token is sensitive to nullability (boxed vs primitive). -/
def nullSensitiveTags : List String :=
  ["BooleanTypeAnnotation", "NumberTypeAnnotation", "DoubleTypeAnnotation",
   "FloatTypeAnnotation", "Int32TypeAnnotation"]

/-! ## Concrete scenario inputs used by individual claims -/

/-- The promise scenario method: `fetch`, one non-nullable string parameter
(arbitrary parameter name and inner-annotation nullability flag), promise
return (arbitrary remaining fields). -/
def fetchMethod (pname : String) (inull rnull : Bool) (rname : String)
    (rprops : Option (List String)) : Property :=
  ⟨"fetch", ⟨[⟨pname, false, ⟨"StringTypeAnnotation", inull, "", none⟩⟩],
    ⟨"GenericPromiseTypeAnnotation", rnull, rname, rprops⟩⟩⟩

/-- A concrete `getConstants` method with no parameters and a non-empty
structural object return, for the constants-override witness. -/
def c4Method : Property :=
  ⟨"getConstants", ⟨[], ⟨"ObjectTypeAnnotation", false, "", some ["x"]⟩⟩⟩

/-- A concrete alias table resolving `BoolAlias` to an inline boolean. -/
def boolAliasTable : List (String × TypeAnnot) :=
  [("BoolAlias", ⟨"BooleanTypeAnnotation", false, "", none⟩)]

/-- A concrete two-parameter void method with distinctive parameter names. -/
def c10Method : Property :=
  ⟨"doThing", ⟨[⟨"zzFirstArg", false, ⟨"StringTypeAnnotation", false, "", none⟩⟩,
               ⟨"zzSecondArg", false, ⟨"StringTypeAnnotation", false, "", none⟩⟩],
    ⟨"VoidTypeAnnotation", false, "", none⟩⟩⟩

/-- Checks that `c10Method` emits successfully and its thunk text does not
contain the second declared parameter name. -/
def c10Check : Bool :=
  match translateMethodForImplementation c10Method [] with
  | Except.ok t => !(occursWithin ("zzSecondArg".data) t.data)
  | Except.error _ => false

/-! ## Lemmas about the substitution scan -/

set_option maxRecDepth 10000

theorem isPrefixOf_eq_false_of_occursWithin_eq_false {pat l : List Char}
    (h : occursWithin pat l = false) : pat.isPrefixOf l = false := by
  cases l with
  | nil =>
    simp [occursWithin, List.isEmpty] at h ⊢
    cases pat <;> simp_all [List.isPrefixOf]
  | cons c rest => simp [occursWithin] at h; exact h.1

theorem occursWithin_tail_eq_false {pat : List Char} {c : Char} {rest : List Char}
    (h : occursWithin pat (c :: rest) = false) : occursWithin pat rest = false := by
  simp [occursWithin] at h; exact h.2

theorem replaceCharsAux_of_not_occurs (fuel : Nat) (l pat rep : List Char)
    (h : occursWithin pat l = false) : replaceCharsAux fuel l pat rep = l := by
  induction fuel generalizing l with
  | zero => rfl
  | succ fuel ih =>
    cases l with
    | nil => rfl
    | cons c rest =>
      have hpre := isPrefixOf_eq_false_of_occursWithin_eq_false h
      have htail := occursWithin_tail_eq_false h
      simp [replaceCharsAux, hpre, ih rest htail]

/-- A pattern that occurs nowhere in a string substitutes to nothing. -/
theorem replaceAll_of_not_occurs (s pat rep : String)
    (h : occursWithin pat.data s.data = false) : replaceAll s pat rep = s := by
  cases s with
  | mk data => simp [replaceAll, replaceCharsAux_of_not_occurs _ _ _ _ h]

theorem replaceCharsAux_head {fuel : Nat} {c p : Char} {rest pt rep : List Char}
    (hne : p ≠ c) :
    replaceCharsAux (fuel + 1) (c :: rest) (p :: pt) rep =
      c :: replaceCharsAux fuel rest (p :: pt) rep := by
  have : (p :: pt).isPrefixOf (c :: rest) = false := by
    simp [List.isPrefixOf]
    intro hpc
    exact absurd hpc hne
  simp [replaceCharsAux, this]

/-- Substitution with a pattern that starts with a different character keeps
the first character of the scanned string. -/
theorem replaceAll_firstChar {s pat rep : String} {c p : Char}
    (hs : firstCharIs s c) (hp : pat.data.head? = some p) (hne : p ≠ c) :
    firstCharIs (replaceAll s pat rep) c := by
  rcases s with ⟨data⟩
  cases data with
  | nil => simp [firstCharIs] at hs
  | cons c0 rest =>
    rcases pat with ⟨pdata⟩
    cases pdata with
    | nil => simp at hp
    | cons p0 pt =>
      simp [firstCharIs] at hs hp
      subst hs; subst hp
      simp [firstCharIs, replaceAll, List.length_cons, replaceCharsAux_head hne]

theorem ne_empty_of_firstChar {s : String} {c : Char} (h : firstCharIs s c) : s ≠ "" := by
  intro hEq
  rw [hEq] at h
  simp [firstCharIs] at h

/-! ## Lemmas about the flattening accumulator -/

theorem find?_map_replace (acc : List (String × NativeModuleShape))
    (q : String × NativeModuleShape) (k : String) :
    (acc.map (fun p => if p.1 == q.1 then q else p)).find? (fun p => p.1 == k) =
      if q.1 == k then (acc.find? (fun p => p.1 == q.1)).map (fun _ => q)
      else acc.find? (fun p => p.1 == k) := by
  induction acc with
  | nil => simp
  | cons a acc ih =>
    simp only [List.map_cons]
    by_cases hp : a.1 = q.1
    · have hhead : (if a.1 == q.1 then q else a) = q := by simp [hp]
      rw [hhead]
      by_cases hk : q.1 = k
      · rw [List.find?_cons_of_pos (p := fun p : String × NativeModuleShape => p.1 == k) _ (by simp [hk]),
          if_pos (show ((q.1 == k) = true) by simp [hk]),
          List.find?_cons_of_pos (p := fun p : String × NativeModuleShape => p.1 == q.1) _ (by simp [hp])]
        rfl
      · rw [List.find?_cons_of_neg (p := fun p : String × NativeModuleShape => p.1 == k) _ (by simp [hk]), ih,
          if_neg (show ¬ ((q.1 == k) = true) by simp [hk]),
          if_neg (show ¬ ((q.1 == k) = true) by simp [hk]),
          List.find?_cons_of_neg (p := fun p : String × NativeModuleShape => p.1 == k) _ (by simp [hp, hk])]
    · have hhead : (if a.1 == q.1 then q else a) = a := by simp [hp]
      rw [hhead]
      by_cases hak : a.1 = k
      · have hqk : ¬ q.1 = k := fun h => hp (by rw [hak, h])
        rw [List.find?_cons_of_pos (p := fun p : String × NativeModuleShape => p.1 == k) _ (by simp [hak]),
          if_neg (show ¬ ((q.1 == k) = true) by simp [hqk]),
          List.find?_cons_of_pos (p := fun p : String × NativeModuleShape => p.1 == k) _ (by simp [hak])]
      · rw [List.find?_cons_of_neg (p := fun p : String × NativeModuleShape => p.1 == k) _ (by simp [hak]), ih]
        by_cases hqk : q.1 = k
        · rw [if_pos (show ((q.1 == k) = true) by simp [hqk]),
            if_pos (show ((q.1 == k) = true) by simp [hqk]),
            List.find?_cons_of_neg (p := fun p : String × NativeModuleShape => p.1 == q.1) _ (by simp [hp])]
        · rw [if_neg (show ¬ ((q.1 == k) = true) by simp [hqk]),
            if_neg (show ¬ ((q.1 == k) = true) by simp [hqk]),
            List.find?_cons_of_neg (p := fun p : String × NativeModuleShape => p.1 == k) _ (by simp [hak])]

/-- One assignment step, seen through lookup: the assigned key now maps to the
new value, every other key is untouched. -/
theorem lookupVal_insertOrReplace (acc : List (String × NativeModuleShape))
    (q : String × NativeModuleShape) (k : String) :
    lookupVal (insertOrReplace acc q) k =
      if q.1 == k then some q.2 else lookupVal acc k := by
  unfold insertOrReplace lookupVal
  by_cases hany : acc.any (fun p => p.1 == q.1) = true
  · rw [if_pos hany, find?_map_replace]
    obtain ⟨x, hx, hxq⟩ := List.any_eq_true.mp hany
    by_cases hqk : q.1 = k
    · cases hfind : acc.find? (fun p => p.1 == q.1) with
      | none =>
        exact absurd hxq (by simpa using List.find?_eq_none.mp hfind x hx)
      | some y =>
        rw [if_pos (show ((q.1 == k) = true) by simp [hqk]),
          if_pos (show ((q.1 == k) = true) by simp [hqk])]
        rfl
    · rw [if_neg (show ¬ ((q.1 == k) = true) by simp [hqk]),
        if_neg (show ¬ ((q.1 == k) = true) by simp [hqk])]
  · rw [if_neg hany, List.find?_append]
    by_cases hqk : q.1 = k
    · have hnone : acc.find? (fun p => p.1 == k) = none := by
        rw [List.find?_eq_none]
        intro x hx hxk
        refine hany (List.any_eq_true.mpr ⟨x, hx, ?_⟩)
        simp at hxk ⊢
        rw [hxk, hqk]
      rw [hnone, if_pos (show ((q.1 == k) = true) by simp [hqk]),
        List.find?_cons_of_pos (p := fun p : String × NativeModuleShape => p.1 == k) _ (by simp [hqk])]
      rfl
    · rw [List.find?_cons_of_neg (p := fun p : String × NativeModuleShape => p.1 == k) _ (by simp [hqk]),
        List.find?_nil, Option.or_none, if_neg (show ¬ ((q.1 == k) = true) by simp [hqk])]

/-- One assignment step, seen through key order: an existing key keeps its
position, a fresh key is appended. -/
theorem keys_insertOrReplace (acc : List (String × NativeModuleShape))
    (q : String × NativeModuleShape) :
    (insertOrReplace acc q).map (fun p => p.1) =
      if q.1 ∈ acc.map (fun p => p.1) then acc.map (fun p => p.1)
      else acc.map (fun p => p.1) ++ [q.1] := by
  unfold insertOrReplace
  have hmem : (q.1 ∈ acc.map (fun p => p.1)) ↔ acc.any (fun p => p.1 == q.1) = true := by
    rw [List.any_eq_true]
    constructor
    · intro hm
      obtain ⟨x, hx, hxq⟩ := List.mem_map.mp hm
      exact ⟨x, hx, by simp [hxq]⟩
    · rintro ⟨x, hx, hxq⟩
      exact List.mem_map.mpr ⟨x, hx, by simpa using hxq⟩
  by_cases hany : acc.any (fun p => p.1 == q.1) = true
  · rw [if_pos hany, if_pos (hmem.mpr hany), List.map_map]
    apply List.map_congr_left
    intro p hp2
    simp only [Function.comp]
    by_cases hp : p.1 = q.1
    · rw [if_pos (show ((p.1 == q.1) = true) by simp [hp])]
      exact hp.symm
    · rw [if_neg (show ¬ ((p.1 == q.1) = true) by simp [hp])]
  · rw [if_neg hany, if_neg (fun hm => hany (hmem.mp hm)), List.map_append]
    rfl

theorem foldl_insertOrReplace_flatten (ls : List (List (String × NativeModuleShape)))
    (acc : List (String × NativeModuleShape)) :
    ls.foldl (fun acc ms => ms.foldl insertOrReplace acc) acc =
      ls.flatten.foldl insertOrReplace acc := by
  induction ls generalizing acc with
  | nil => rfl
  | cons ms ls ih => simp [List.foldl_append, ih]

theorem keys_foldl (stream : List (String × NativeModuleShape))
    (acc : List (String × NativeModuleShape)) :
    (stream.foldl insertOrReplace acc).map (fun p => p.1) =
      stream.foldl (fun ks p => if p.1 ∈ ks then ks else ks ++ [p.1])
        (acc.map (fun p => p.1)) := by
  induction stream generalizing acc with
  | nil => rfl
  | cons q stream ih => simp only [List.foldl_cons, ih, keys_insertOrReplace]

theorem lookup_foldl (stream : List (String × NativeModuleShape))
    (acc : List (String × NativeModuleShape)) (k : String) :
    lookupVal (stream.foldl insertOrReplace acc) k =
      stream.foldl (fun r p => if p.1 == k then some p.2 else r) (lookupVal acc k) := by
  induction stream generalizing acc with
  | nil => rfl
  | cons q stream ih => simp only [List.foldl_cons, ih, lookupVal_insertOrReplace]

/-! ## A helper equation for the thunk emitter -/

/-- In the non-degenerate case with both translations succeeding, the thunk is
the template with the four placeholders substituted in source order. -/
theorem translateMethodForImplementation_eq (property : Property)
    (aliases : List (String × TypeAnnot)) (k s : String)
    (hdeg : isConstantsDegenerate property.name property.typeAnnot.returnTypeAnnot = false)
    (hkind : translateReturnTypeToKind property.typeAnnot.returnTypeAnnot = Except.ok k)
    (hsig : translateMethodTypeToJniSignature property aliases = Except.ok s) :
    translateMethodForImplementation property aliases =
      Except.ok (replaceAll
        (replaceAll
          (replaceAll (replaceAll propertyTemplate kindPat k) propNamePat property.name)
          argsPat (argsValueOf property))
        signaturePat s) := by
  simp only [translateMethodForImplementation, hdeg, hkind, hsig]
  rfl

/-! ## Claims -/

/-- C1: a method named `fetch` with exactly one non-nullable string parameter
and a promise return annotation gets descriptor
`(Ljava/lang/String;Lcom/facebook/react/bridge/Promise;)V` (void effective
return, synthetic trailing promise token), and its registration entry records
a declared-parameter count of 1, the synthetic promise parameter excluded. -/
theorem claim_C1_fetch_promise_descriptor (pname : String) (inull rnull : Bool)
    (rname : String) (rprops : Option (List String))
    (aliases : List (String × TypeAnnot)) :
    translateMethodTypeToJniSignature (fetchMethod pname inull rnull rname rprops) aliases =
      Except.ok ("(Ljava/lang/String;Lcom/facebook/react/bridge/Promise;)V")
    ∧ registrationEntry (fetchMethod pname inull rnull rname rprops) =
      "  methodMap_[\"fetch\"] = MethodMetadata \x7b1, __hostFunction_Native::_MODULE_NAME_::SpecJSI_fetch\x7d;" := by
  constructor
  · rfl
  · simp only [registrationEntry, fetchMethod, List.length_cons, List.length_nil]
    rfl

/-- C2: the kind translator maps the reserved RootTag scalar and every numeric
sub-variant to NumberKind, void to VoidKind, string to StringKind, boolean to
BooleanKind, promise to PromiseKind, generic and structural object to
ObjectKind, array to ArrayKind; a reserved scalar with an unexpected name
fails naming that name, and every tag outside the closed set fails with an
error message that carries the offending tag. -/
theorem claim_C2_kind_translation (ta : TypeAnnot) :
    (ta.type = "ReservedFunctionValueTypeAnnotation" → ta.name = "RootTag" →
      translateReturnTypeToKind ta = Except.ok ("NumberKind"))
    ∧ (ta.type = "ReservedFunctionValueTypeAnnotation" → ta.name ≠ "RootTag" →
      translateReturnTypeToKind ta =
        Except.error ("Invalid ReservedFunctionValueTypeName name, got " ++ ta.name))
    ∧ (ta.type = "VoidTypeAnnotation" → translateReturnTypeToKind ta = Except.ok ("VoidKind"))
    ∧ (ta.type = "StringTypeAnnotation" → translateReturnTypeToKind ta = Except.ok ("StringKind"))
    ∧ (ta.type = "BooleanTypeAnnotation" → translateReturnTypeToKind ta = Except.ok ("BooleanKind"))
    ∧ (ta.type = "NumberTypeAnnotation" ∨ ta.type = "DoubleTypeAnnotation"
        ∨ ta.type = "FloatTypeAnnotation" ∨ ta.type = "Int32TypeAnnotation" →
      translateReturnTypeToKind ta = Except.ok ("NumberKind"))
    ∧ (ta.type = "GenericPromiseTypeAnnotation" →
      translateReturnTypeToKind ta = Except.ok ("PromiseKind"))
    ∧ (ta.type = "GenericObjectTypeAnnotation" ∨ ta.type = "ObjectTypeAnnotation" →
      translateReturnTypeToKind ta = Except.ok ("ObjectKind"))
    ∧ (ta.type = "ArrayTypeAnnotation" → translateReturnTypeToKind ta = Except.ok ("ArrayKind"))
    ∧ (kindClosedTags.contains ta.type = false →
      translateReturnTypeToKind ta =
        Except.error ("Unknown prop type for returning value, found: " ++ ta.type ++ "\"")) := by
  refine ⟨?_, ?_, ?_, ?_, ?_, ?_, ?_, ?_, ?_, ?_⟩
  · intro h1 h2; simp [translateReturnTypeToKind, h1, h2]
  · intro h1 h2; simp [translateReturnTypeToKind, h1, h2]
  · intro h1; simp [translateReturnTypeToKind, h1]
  · intro h1; simp [translateReturnTypeToKind, h1]
  · intro h1; simp [translateReturnTypeToKind, h1]
  · intro h1; rcases h1 with h|h|h|h <;> simp [translateReturnTypeToKind, h]
  · intro h1; simp [translateReturnTypeToKind, h1]
  · intro h1; rcases h1 with h|h <;> simp [translateReturnTypeToKind, h]
  · intro h1; simp [translateReturnTypeToKind, h1]
  · intro h
    simp only [kindClosedTags, List.contains, List.elem_eq_mem, decide_eq_false_iff_not,
      List.mem_cons, List.not_mem_nil, or_false] at h
    push_neg at h
    obtain ⟨h1, h2, h3, h4, h5, h6, h7, h8, h9, h10, h11, h12⟩ := h
    simp [translateReturnTypeToKind, h1, h2, h3, h4, h5, h6, h7, h8, h9, h10, h11, h12]

/-- C2 witness: an unresolved alias tag and a function tag both sit outside
the closed set and fail carrying the tag; void maps to VoidKind. -/
theorem claim_C2_kind_translation_witness :
    kindClosedTags.contains ("FunctionTypeAnnotation") = false
    ∧ translateReturnTypeToKind ⟨"FunctionTypeAnnotation", false, "", none⟩ =
      Except.error ("Unknown prop type for returning value, found: FunctionTypeAnnotation\"")
    ∧ translateReturnTypeToKind ⟨"TypeAliasTypeAnnotation", false, "MyAlias", none⟩ =
      Except.error ("Unknown prop type for returning value, found: TypeAliasTypeAnnotation\"")
    ∧ translateReturnTypeToKind ⟨"VoidTypeAnnotation", false, "", none⟩ =
      Except.ok ("VoidKind") :=
  ⟨by decide,
   (claim_C2_kind_translation ⟨"FunctionTypeAnnotation", false, "", none⟩).2.2.2.2.2.2.2.2.2
     (by decide),
   (claim_C2_kind_translation ⟨"TypeAliasTypeAnnotation", false, "MyAlias", none⟩).2.2.2.2.2.2.2.2.2
     (by decide),
   (claim_C2_kind_translation ⟨"VoidTypeAnnotation", false, "", none⟩).2.2.1 rfl⟩

/-- C3: over every supported tag, in parameter and in return position and for
either nullability, the ABI translators succeed with a token from the fixed
JNI token set; and for the numeric and boolean tags the nullable and the
non-nullable translations differ, in both positions. -/
theorem claim_C3_abi_token_set (ta : TypeAnnot) (pname : String)
    (aliases : List (String × TypeAnnot)) :
    (paramTags.contains ta.type = true →
      (ta.type = "ReservedFunctionValueTypeAnnotation" → ta.name = "RootTag") →
      ∀ b : Bool, okTokenIn (translateParamTypeToJniType ⟨pname, b, ta⟩ aliases) jniTokens = true)
    ∧ (returnTags.contains ta.type = true →
      (ta.type = "ReservedFunctionValueTypeAnnotation" → ta.name = "RootTag") →
      ∀ b : Bool,
        okTokenIn (translateReturnTypeToJniType ⟨ta.type, b, ta.name, ta.properties⟩) jniTokens = true)
    ∧ (nullSensitiveTags.contains ta.type = true →
      translateParamTypeToJniType ⟨pname, true, ta⟩ aliases ≠
        translateParamTypeToJniType ⟨pname, false, ta⟩ aliases
      ∧ translateReturnTypeToJniType ⟨ta.type, true, ta.name, ta.properties⟩ ≠
        translateReturnTypeToJniType ⟨ta.type, false, ta.name, ta.properties⟩) := by
  refine ⟨?_, ?_, ?_⟩
  · intro hmem hres b
    simp only [paramTags, List.contains, List.elem_eq_mem, decide_eq_true_eq, List.mem_cons,
      List.not_mem_nil, or_false] at hmem
    rcases hmem with h|hmem
    · simp [translateParamTypeToJniType, paramJniSwitch, h, okTokenIn, jniTokens, hres h]
    rcases hmem with h|h|h|h|h|h|h|h|h|h|h|h <;>
      simp [translateParamTypeToJniType, paramJniSwitch, h, okTokenIn, jniTokens] <;>
      cases b <;> simp
  · intro hmem hres b
    simp only [returnTags, List.contains, List.elem_eq_mem, decide_eq_true_eq, List.mem_cons,
      List.not_mem_nil, or_false] at hmem
    rcases hmem with h|hmem
    · simp [translateReturnTypeToJniType, h, okTokenIn, jniTokens, hres h]
    rcases hmem with h|h|h|h|h|h|h|h|h|h|h <;>
      simp [translateReturnTypeToJniType, h, okTokenIn, jniTokens] <;>
      cases b <;> simp
  · intro hmem
    simp only [nullSensitiveTags, List.contains, List.elem_eq_mem, decide_eq_true_eq,
      List.mem_cons, List.not_mem_nil, or_false] at hmem
    rcases hmem with h|h|h|h|h <;>
      refine ⟨?_, ?_⟩ <;>
      simp [translateParamTypeToJniType, paramJniSwitch, translateReturnTypeToJniType, h]

/-- C3 witness: the boolean tag, in parameter position: the token is in the
fixed set, and the nullable token differs from the non-nullable one. -/
theorem claim_C3_abi_token_set_witness :
    paramTags.contains ("BooleanTypeAnnotation") = true
    ∧ okTokenIn (translateParamTypeToJniType
        ⟨"x", true, ⟨"BooleanTypeAnnotation", false, "", none⟩⟩ []) jniTokens = true
    ∧ translateParamTypeToJniType ⟨"x", true, ⟨"BooleanTypeAnnotation", false, "", none⟩⟩ [] ≠
      translateParamTypeToJniType ⟨"x", false, ⟨"BooleanTypeAnnotation", false, "", none⟩⟩ [] :=
  ⟨by decide,
   (claim_C3_abi_token_set ⟨"BooleanTypeAnnotation", false, "", none⟩ "x" []).1
     (by decide) (fun h => absurd h (by decide)) true,
   ((claim_C3_abi_token_set ⟨"BooleanTypeAnnotation", false, "", none⟩ "x" []).2.2
     (by decide)).1⟩

/-- C4: when the parameter tokens translate, a method named `getConstants`
gets the map reference token `Ljava/util/Map;` as return token regardless of
its declared return annotation, and a method with any other name gets the
general ABI translation of its effective return annotation. -/
theorem claim_C4_constants_return_token (property : Property)
    (aliases : List (String × TypeAnnot)) (parts : List String)
    (h : signatureArgsParts property aliases = Except.ok parts) :
    (property.name = "getConstants" →
      translateMethodTypeToJniSignature property aliases =
        Except.ok ("(" ++ String.join parts ++ ")" ++ "Ljava/util/Map;"))
    ∧ (property.name ≠ "getConstants" → ∀ r,
        translateReturnTypeToJniType (processedReturnOf property) = Except.ok r →
        translateMethodTypeToJniSignature property aliases =
          Except.ok ("(" ++ String.join parts ++ ")" ++ r)) := by
  constructor
  · intro hname
    simp [translateMethodTypeToJniSignature, h, hname]
  · intro hname r hr
    simp [translateMethodTypeToJniSignature, h, hname, hr]

/-- C4 witness: a `getConstants` method declared to return a structural object
still gets the map token in its descriptor. -/
theorem claim_C4_constants_return_token_witness :
    signatureArgsParts c4Method [] = Except.ok []
    ∧ translateMethodTypeToJniSignature c4Method [] = Except.ok ("()Ljava/util/Map;") :=
  ⟨rfl, (claim_C4_constants_return_token c4Method [] [] rfl).1 rfl⟩

/-- C5: a `getConstants` method whose declared return is a structural object
with a present empty property list emits an empty thunk and an empty
registration entry; the same method with at least one property (and a
successfully translating signature) emits a non-empty thunk and a non-empty
registration entry. -/
theorem claim_C5_degenerate_constants (ps : List Param)
    (aliases : List (String × TypeAnnot)) (rnull : Bool) (rname : String) :
    (translateMethodForImplementation
        ⟨"getConstants", ⟨ps, ⟨"ObjectTypeAnnotation", rnull, rname, some []⟩⟩⟩ aliases =
          Except.ok ("")
      ∧ registrationEntry
          ⟨"getConstants", ⟨ps, ⟨"ObjectTypeAnnotation", rnull, rname, some []⟩⟩⟩ = "")
    ∧ ∀ (p0 : String) (props : List String) (s : String),
        translateMethodTypeToJniSignature
            ⟨"getConstants", ⟨ps, ⟨"ObjectTypeAnnotation", rnull, rname, some (p0 :: props)⟩⟩⟩
            aliases = Except.ok s →
        (∃ t, translateMethodForImplementation
            ⟨"getConstants", ⟨ps, ⟨"ObjectTypeAnnotation", rnull, rname, some (p0 :: props)⟩⟩⟩
            aliases = Except.ok t ∧ t ≠ "")
        ∧ registrationEntry
            ⟨"getConstants", ⟨ps, ⟨"ObjectTypeAnnotation", rnull, rname, some (p0 :: props)⟩⟩⟩ ≠ "" := by
  refine ⟨⟨rfl, rfl⟩, ?_⟩
  intro p0 props s hsig
  constructor
  · refine ⟨_, translateMethodForImplementation_eq _ aliases "ObjectKind" s rfl rfl hsig, ?_⟩
    apply ne_empty_of_firstChar (c := Char.ofNat 10)
    apply replaceAll_firstChar _ (show signaturePat.data.head? = some (Char.ofNat 58) from rfl) (by decide)
    apply replaceAll_firstChar _ (show argsPat.data.head? = some (Char.ofNat 58) from rfl) (by decide)
    apply replaceAll_firstChar _ (show propNamePat.data.head? = some (Char.ofNat 58) from rfl) (by decide)
    apply replaceAll_firstChar _ (show kindPat.data.head? = some (Char.ofNat 58) from rfl) (by decide)
    rfl
  · have hreg : registrationEntry
        ⟨"getConstants", ⟨ps, ⟨"ObjectTypeAnnotation", rnull, rname, some (p0 :: props)⟩⟩⟩ =
        replaceAll (replaceAll propertyDefTemplate propNamePat "getConstants")
          argsCountPat (toString ps.length) := rfl
    rw [hreg]
    apply ne_empty_of_firstChar (c := Char.ofNat 32)
    apply replaceAll_firstChar _ (show argsCountPat.data.head? = some (Char.ofNat 58) from rfl) (by decide)
    apply replaceAll_firstChar _ (show propNamePat.data.head? = some (Char.ofNat 58) from rfl) (by decide)
    rfl

/-- C5 witness: the no-parameter `getConstants` accessor, degenerate and
non-degenerate, at concrete inputs. -/
theorem claim_C5_degenerate_constants_witness :
    translateMethodTypeToJniSignature
        ⟨"getConstants", ⟨[], ⟨"ObjectTypeAnnotation", false, "", some ["a"]⟩⟩⟩ [] =
      Except.ok ("()Ljava/util/Map;")
    ∧ (translateMethodForImplementation
          ⟨"getConstants", ⟨[], ⟨"ObjectTypeAnnotation", false, "", some []⟩⟩⟩ [] =
            Except.ok ("")
        ∧ registrationEntry
            ⟨"getConstants", ⟨[], ⟨"ObjectTypeAnnotation", false, "", some []⟩⟩⟩ = "")
    ∧ ((∃ t, translateMethodForImplementation
          ⟨"getConstants", ⟨[], ⟨"ObjectTypeAnnotation", false, "", some ["a"]⟩⟩⟩ [] =
            Except.ok t ∧ t ≠ "")
        ∧ registrationEntry
            ⟨"getConstants", ⟨[], ⟨"ObjectTypeAnnotation", false, "", some ["a"]⟩⟩⟩ ≠ "") :=
  ⟨rfl, (claim_C5_degenerate_constants [] [] false "").1,
   (claim_C5_degenerate_constants [] [] false "").2 "a" [] "()Ljava/util/Map;" rfl⟩

/-- C6 counterexample: an alias that the table does resolve (to a boolean)
still fails in return position — `translateReturnTypeToJniType` performs no
alias resolution and does not even take a table, so the alias tag falls into
its unknown-type failure branch. -/
theorem claim_C6_counterexample :
    getTypeAliasTypeAnnot ("BoolAlias") boolAliasTable =
      Except.ok ⟨"BooleanTypeAnnotation", false, "", none⟩
    ∧ translateReturnTypeToJniType ⟨"TypeAliasTypeAnnotation", true, "BoolAlias", none⟩ =
      Except.error ("Unknown prop type for method return type, found: TypeAliasTypeAnnotation\"") :=
  ⟨rfl, rfl⟩

/-- C6 amended: alias resolution happens only in parameter position.  There,
an alias present in the table and mapping to a concrete (non-alias)
annotation is translated exactly like the inline annotation, and an alias
name absent from the table is a hard failure; in return position every alias
reference fails as an unknown type, whatever the table holds. -/
theorem claim_C6_alias_param_position_only (pname aliasName : String)
    (nullable inull : Bool) (iprops : Option (List String))
    (aliases : List (String × TypeAnnot)) (resolved : TypeAnnot) :
    (getTypeAliasTypeAnnot aliasName aliases = Except.ok resolved →
      resolved.type ≠ "TypeAliasTypeAnnotation" →
      translateParamTypeToJniType
          ⟨pname, nullable, ⟨"TypeAliasTypeAnnotation", inull, aliasName, iprops⟩⟩ aliases =
        translateParamTypeToJniType ⟨pname, nullable, resolved⟩ aliases)
    ∧ (getTypeAliasTypeAnnot aliasName aliases =
        Except.error ("Unable to find type alias " ++ aliasName) →
      translateParamTypeToJniType
          ⟨pname, nullable, ⟨"TypeAliasTypeAnnotation", inull, aliasName, iprops⟩⟩ aliases =
        Except.error ("Unable to find type alias " ++ aliasName))
    ∧ translateReturnTypeToJniType ⟨"TypeAliasTypeAnnotation", inull, aliasName, iprops⟩ =
        Except.error ("Unknown prop type for method return type, found: TypeAliasTypeAnnotation\"") := by
  refine ⟨?_, ?_, rfl⟩
  · intro hres hnotalias
    simp only [translateParamTypeToJniType, hres]
    rw [if_neg hnotalias]
    rfl
  · intro hres
    simp only [translateParamTypeToJniType, hres]
    rfl

/-- C6 amended witness: the boolean alias of `boolAliasTable`, in parameter
position, translates exactly like the inline boolean annotation. -/
theorem claim_C6_alias_param_position_only_witness :
    getTypeAliasTypeAnnot ("BoolAlias") boolAliasTable =
      Except.ok ⟨"BooleanTypeAnnotation", false, "", none⟩
    ∧ translateParamTypeToJniType
        ⟨"x", true, ⟨"TypeAliasTypeAnnotation", false, "BoolAlias", none⟩⟩ boolAliasTable =
      translateParamTypeToJniType
        ⟨"x", true, ⟨"BooleanTypeAnnotation", false, "", none⟩⟩ boolAliasTable :=
  ⟨rfl,
   (claim_C6_alias_param_position_only "x" "BoolAlias" true false none boolAliasTable
     ⟨"BooleanTypeAnnotation", false, "", none⟩).1 rfl (by decide)⟩

/-- C7: a nullable parameter typed through an alias that resolves to a
boolean annotation gets the boxed-boolean token, identical to a nullable
parameter with an inline boolean annotation. -/
theorem claim_C7_alias_boolean_boxed (pname aliasName : String) (inull bnull : Bool)
    (iprops bprops : Option (List String)) (bname : String)
    (aliases : List (String × TypeAnnot)) (resolved : TypeAnnot)
    (hres : getTypeAliasTypeAnnot aliasName aliases = Except.ok resolved)
    (hbool : resolved.type = "BooleanTypeAnnotation") :
    translateParamTypeToJniType
        ⟨pname, true, ⟨"TypeAliasTypeAnnotation", inull, aliasName, iprops⟩⟩ aliases =
      Except.ok ("Ljava/lang/Boolean")
    ∧ translateParamTypeToJniType
        ⟨pname, true, ⟨"BooleanTypeAnnotation", bnull, bname, bprops⟩⟩ aliases =
      Except.ok ("Ljava/lang/Boolean") := by
  constructor
  · simp only [translateParamTypeToJniType, hres]
    simp [paramJniSwitch, hbool]
  · rfl

/-- C7 witness: the alias and the inline form both produce the boxed-boolean
token on the concrete table. -/
theorem claim_C7_alias_boolean_boxed_witness :
    getTypeAliasTypeAnnot ("BoolAlias") boolAliasTable =
      Except.ok ⟨"BooleanTypeAnnotation", false, "", none⟩
    ∧ translateParamTypeToJniType
        ⟨"x", true, ⟨"TypeAliasTypeAnnotation", false, "BoolAlias", none⟩⟩ boolAliasTable =
      Except.ok ("Ljava/lang/Boolean")
    ∧ translateParamTypeToJniType
        ⟨"x", true, ⟨"BooleanTypeAnnotation", false, "x", none⟩⟩ boolAliasTable =
      Except.ok ("Ljava/lang/Boolean") :=
  ⟨rfl,
   (claim_C7_alias_boolean_boxed "x" "BoolAlias" false false none none "x" boolAliasTable
     ⟨"BooleanTypeAnnotation", false, "", none⟩ rfl rfl).1,
   (claim_C7_alias_boolean_boxed "x" "BoolAlias" false false none none "x" boolAliasTable
     ⟨"BooleanTypeAnnotation", false, "", none⟩ rfl rfl).2⟩

/-- C8: flattening merges every group into one namespace keyed by module
name: the key order of the flattened namespace is the order in which each
name was first encountered in the processed stream, and the value recorded
for every name is the last definition written for it (later groups silently
overwrite earlier ones). -/
theorem claim_C8_flatten_first_seen_last_write (schema : SchemaType) :
    (flattenNativeModules schema).map (fun p => p.1) = firstSeenKeys (flattenStream schema)
    ∧ ∀ k, lookupVal (flattenNativeModules schema) k = lastWriteWins (flattenStream schema) k := by
  constructor
  · rw [flattenNativeModules, foldl_insertOrReplace_flatten, keys_foldl]
    rfl
  · intro k
    rw [flattenNativeModules, foldl_insertOrReplace_flatten, lookup_foldl]
    rfl

/-- C9 counterexample: the emitted lookup text signals nothing when no module
matches.  For the empty schema the lookup text is empty, and the whole
generated artifact leaves the body of the module-provider function empty: no
no-match fallback of any kind is emitted. -/
theorem claim_C9_counterexample :
    moduleLookupText (flattenNativeModules ⟨[]⟩) = ""
    ∧ generate "Lib" ⟨[]⟩ "Spec" = Except.ok [("Spec-generated.cpp",
      "\n/**\n * Copyright (c) Facebook, Inc. and its affiliates.\n *\n * This source code is licensed under the MIT license found in the\n * LICENSE file in the root directory of this source tree.\n *\n * @generated by codegen project: GenerateModuleJniCpp.js\n */\n\n#include \"Spec.h\"\n\nnamespace facebook \x7b\nnamespace react \x7b\n\n\n\nstd::shared_ptr<TurboModule> Lib_ModuleProvider(const std::string moduleName, const JavaTurboModule::InitParams &params) \x7b\n\n\x7d\n\n\x7d // namespace react\n\x7d // namespace facebook\n")] :=
  ⟨rfl, rfl⟩

/-- C9 amended: the emitted lookup text is exactly one equality-check block
per flattened module, in flattening order, each returning a newly constructed
bridge instance for the matching name — and nothing else: no explicit
no-match signal follows the blocks. -/
theorem claim_C9_lookup_blocks (nativeModules : List (String × NativeModuleShape)) :
    moduleLookupText nativeModules =
      String.intercalate "\n" (nativeModules.map (fun p =>
        "  if (moduleName == \"" ++ (p.1 ++ ("\") \x7b\n    return std::make_shared<Native" ++
          (p.1 ++ "SpecJSI>(params);\n  \x7d"))))) := by
  rfl

/-- C10 counterexample: a two-parameter method emits successfully, yet its
thunk text does not contain the declared parameter name `zzSecondArg` — the
argument-name list never reaches the output. -/
theorem claim_C10_counterexample : c10Check = true := by
  rfl

/-- C10 amended: for a non-degenerate method whose kind and signature
translate, the emitted thunk is the thunk template with the dispatch kind,
the method name and the descriptor substituted; the documentary argument-name
list is computed but substituted against the `::_ARGS_::` placeholder, which
does not occur in the thunk text, so neither the parameter names nor the
synthetic promise name appear in the emitted thunk. -/
theorem claim_C10_args_never_emitted (property : Property)
    (aliases : List (String × TypeAnnot)) (k s : String)
    (hdeg : isConstantsDegenerate property.name property.typeAnnot.returnTypeAnnot = false)
    (hkind : translateReturnTypeToKind property.typeAnnot.returnTypeAnnot = Except.ok k)
    (hsig : translateMethodTypeToJniSignature property aliases = Except.ok s)
    (hargs : occursWithin argsPat.data
      (replaceAll (replaceAll propertyTemplate kindPat k) propNamePat property.name).data = false) :
    translateMethodForImplementation property aliases =
      Except.ok (replaceAll
        (replaceAll (replaceAll propertyTemplate kindPat k) propNamePat property.name)
        signaturePat s) := by
  rw [translateMethodForImplementation_eq property aliases k s hdeg hkind hsig,
    replaceAll_of_not_occurs _ _ _ hargs]

/-- C10 amended witness: the concrete two-parameter method; the placeholder
check and both translations are discharged by computation. -/
theorem claim_C10_args_never_emitted_witness :
    occursWithin argsPat.data
      (replaceAll (replaceAll propertyTemplate kindPat "VoidKind") propNamePat "doThing").data = false
    ∧ translateMethodForImplementation c10Method [] =
      Except.ok (replaceAll
        (replaceAll (replaceAll propertyTemplate kindPat "VoidKind") propNamePat "doThing")
        signaturePat "(Ljava/lang/String;Ljava/lang/String;)V") :=
  ⟨rfl,
   claim_C10_args_never_emitted c10Method [] "VoidKind" "(Ljava/lang/String;Ljava/lang/String;)V"
     rfl rfl rfl rfl⟩
